import Mathlib

/-!
Shallow embedding of `src/imgbeddings/imgbeddings.py` (the `imgbeddings`
class).  Tensors are modelled as total functions from index tuples to ℚ
together with explicit dimension fields; the torch operations used by the
source (`stack`, `sum`, `mean`, `transpose`, slicing from the tail with
negative indices, broadcasting multiplication) are translated operation by
operation.  Real/float arithmetic is modelled by ℚ; note that in ℚ the Lean
convention `x / 0 = 0` stands in for the IEEE division-by-zero artifact of
the reference (the code performs the division unguarded either way).
-/

namespace Imgbeddings

/-- A (B, T, D) tensor: batch item, token position, feature dimension. -/
def Tensor3 : Type := ℕ → ℕ → ℕ → ℚ

/-- A (B, H, T, T) tensor: batch item, head, query token, key token. -/
def Tensor4 : Type := ℕ → ℕ → ℕ → ℕ → ℚ

/-- The all-zero (B, T, D) tensor, used as the out-of-range default of
list lookups (never reached for in-range indices). -/
def zero3 : Tensor3 := fun _ _ _ => 0

/-- The all-zero (B, H, T, T) tensor, the out-of-range lookup default. -/
def zero4 : Tensor4 := fun _ _ _ _ => 0

/-- The raw outputs of the vision model for one processed batch, as
`create_embeddings` reads them: `outputs.hidden_states` is a list of
(B, T, D) tensors (one per layer recorded by the encoder) and
`outputs.attentions` a list of (B, H, T, T) tensors, together with the
dimension sizes shared by all entries. -/
structure ModelOutputs where
  B : ℕ
  T : ℕ
  D : ℕ
  H : ℕ
  hiddenStates : List Tensor3
  attentions : List Tensor4

/-- Python negative indexing `l[i]` for `i ∈ range(-k, 0)`: entry
`l[len(l) - k + j]` for `j < k`.  Models
`[outputs.hidden_states[i] for i in range(-num_layers, 0)]`. -/
def tailWindow3 (l : List Tensor3) (k : ℕ) : List Tensor3 :=
  (List.range k).map fun j => l.getD (l.length - k + j) zero3

/-- The `j`-th entry of the stacked attention window
`torch.stack([outputs.attentions[i] for i in range(-num_layers, 0)])`,
axis order (layer, batch, head, query, key). -/
def attStack (o : ModelOutputs) (k : ℕ) (j : ℕ) : Tensor4 :=
  o.attentions.getD (o.attentions.length - k + j) zero4

/-- Lines 82–84: `torch.sum(torch.stack([...]), 0)` — stack the last
`num_layers` hidden-state tensors and sum them along the new axis 0,
giving a (B, T, D) tensor. -/
def hiddenSummed (o : ModelOutputs) (k : ℕ) : Tensor3 :=
  fun b t d => ((tailWindow3 o.hiddenStates k).map fun f => f b t d).sum

/-- Line 88: `torch.transpose(attentions, 1, 0)` — swap the layer and
batch axes of the stacked window, giving axis order
(batch, layer, head, query, key). -/
def attentionsT (o : ModelOutputs) (k : ℕ) :
    ℕ → ℕ → ℕ → ℕ → ℕ → ℚ :=
  fun b j h q t => attStack o k j b h q t

/-- Line 90: `torch.mean(attentions, (1, 2, 3))` — average the transposed
window over the layer, head and query axes, leaving a (B, T) tensor
indexed by batch item and key token.  `torch.mean` is the sum over the
reduced axes divided by the number of reduced entries. -/
def attnReduced (o : ModelOutputs) (k : ℕ) : ℕ → ℕ → ℚ :=
  fun b t =>
    (∑ j ∈ Finset.range k, ∑ h ∈ Finset.range o.H, ∑ q ∈ Finset.range o.T,
        attentionsT o k b j h q t) / (k * o.H * o.T)

/-- Line 94: `attentions_reweighted[:, 0] = 0.0` — the value of the
(shared) buffer after the class-token column is zeroed in place. -/
def attnReweighted (o : ModelOutputs) (k : ℕ) : ℕ → ℕ → ℚ :=
  fun b t => if t = 0 then 0 else attnReduced o k b t

/-- Line 96: `torch.sum(attentions_reweighted, 1)` — the per-image row sum
used as the normalization denominator. -/
def rowSum (o : ModelOutputs) (k : ℕ) (b : ℕ) : ℚ :=
  ∑ t ∈ Finset.range o.T, attnReweighted o k b t

/-- Lines 95–97: divide each row of the reweighted attention by its own
row sum (the division is unguarded in the source; ℚ's `x / 0 = 0`
convention stands in for the IEEE artifact when the denominator is 0). -/
def attnNormalized (o : ModelOutputs) (k : ℕ) : ℕ → ℕ → ℚ :=
  fun b t => attnReweighted o k b t / rowSum o k b

/-- Lines 99–100: `(hidden_states * attentions_reweighted.unsqueeze(2)).sum(1)`
— weight each token's summed hidden state by its normalized importance and
sum over token positions, giving the (B, D) embedding matrix. -/
def createEmbeddings (o : ModelOutputs) (k : ℕ) : ℕ → ℕ → ℚ :=
  fun b d => ∑ t ∈ Finset.range o.T, hiddenSummed o k b t d * attnNormalized o k b t

/-- The concrete scenario of the spec: B = 2, T = 3, D = 4, k = 1, H = 1;
image 0's hidden-state layer is [[1,1,1,1],[2,0,0,0],[0,2,0,0]] and every
query row of image 0's attention is [1/2, 3/10, 1/5] (so the per-key
average over the single layer, single head and all queries is exactly
[1/2, 3/10, 1/5]).  Image 1 carries arbitrary distinct data. -/
def oScenario : ModelOutputs where
  B := 2
  T := 3
  D := 4
  H := 1
  hiddenStates :=
    [fun b t d =>
      if b = 0 then
        if t = 0 then 1
        else if t = 1 then (if d = 0 then 2 else 0)
        else if t = 2 then (if d = 1 then 2 else 0)
        else 0
      else (b : ℚ) + t + d]
  attentions :=
    [fun b _h _q t =>
      if b = 0 then
        if t = 0 then 1/2 else if t = 1 then 3/10 else if t = 2 then 1/5 else 0
      else
        if t = 0 then 1 else 0]

/-- Spec-side definition (step 1 of the Reducer, in the spec's words):
element-wise sum of the last k hidden-state layers, entry (b, t, d) being
the sum over the k selected layers of that layer's (b, t, d) entry. -/
def specLayerSum (o : ModelOutputs) (k : ℕ) : Tensor3 :=
  fun b t d =>
    ∑ i ∈ Finset.range k, (o.hiddenStates.getD (o.hiddenStates.length - k + i) zero3) b t d

/-- Spec-side definition (step 2 of the Reducer, in the spec's words):
entry (b, t) is the mean, over the k selected layers, all H heads and all
T query positions, of the attention weight received by key token t of
image b. -/
def specKeyImportance (o : ModelOutputs) (k : ℕ) : ℕ → ℕ → ℚ :=
  fun b t =>
    (∑ j ∈ Finset.range k, ∑ h ∈ Finset.range o.H, ∑ q ∈ Finset.range o.T,
        (o.attentions.getD (o.attentions.length - k + j) zero4) b h q t) /
      (k * o.H * o.T)

/-- A two-layer input with hidden entries 1 and 2 at one position,
separating the layer sum (3) from the layer mean (3/2). -/
def oTwoLayers : ModelOutputs where
  B := 1
  T := 1
  D := 1
  H := 1
  hiddenStates := [fun _ _ _ => 1, fun _ _ _ => 2]
  attentions := [fun _ _ _ _ => 1, fun _ _ _ _ => 1]

/-- A degenerate input: one image, T = 3 tokens, every query of the single
head and single layer puts all its attention mass on the class token, and
all hidden-state entries are 1.  After class-token zeroing the importance
row is all zero, so the normalization denominator is 0. -/
def oDegenerate : ModelOutputs where
  B := 1
  T := 3
  D := 2
  H := 1
  hiddenStates := [fun _ _ _ => 1]
  attentions := [fun _ _ _ t => if t = 0 then 1 else 0]

/-- A heap of tensor cells for the imperative view of `create_embeddings`.
All tensors are stored uniformly as functions of five indices (tensors of
lower rank ignore the trailing indices); `next` is the allocation bound.
Python variables hold cell addresses: `=` between variables copies the
address (line 91 aliases `attentions_reweighted` to `attentions_reduced`),
while every torch operation used by the code allocates a fresh cell.
Line 94's sliced assignment is the only in-place write. -/
structure Heap where
  mem : ℕ → (ℕ → ℕ → ℕ → ℕ → ℕ → ℚ)
  next : ℕ

/-- Allocate a fresh cell holding `v`, returning its address. -/
def Heap.alloc (h : Heap) (v : ℕ → ℕ → ℕ → ℕ → ℕ → ℚ) : ℕ × Heap :=
  (h.next, ⟨fun a => if a = h.next then v else h.mem a, h.next + 1⟩)

/-- Overwrite the cell at address `a` (an in-place tensor update). -/
def Heap.write (h : Heap) (a : ℕ) (v : ℕ → ℕ → ℕ → ℕ → ℕ → ℚ) : Heap :=
  ⟨fun a2 => if a2 = a then v else h.mem a2, h.next⟩

/-- Imperative run of lines 82–100 of `create_embeddings` against a heap
`h0` holding whatever tensors already exist (in particular the model's
output tensors, wherever they live below `h0.next`):
`torch.mean` at line 90 allocates the `attentions_reduced` cell; line 91
makes `attentions_reweighted` an alias of that same address; line 94
writes the zeroed class-token column through the alias, in place; lines
95–97 rebind `attentions_reweighted` to a freshly allocated normalized
tensor (a new cell, not an in-place update); lines 99–100 read the final
cells to produce the (B, D) embedding.  Returns the final heap and the
embedding. -/
def runCreateEmbeddings (o : ModelOutputs) (k : ℕ) (h0 : Heap) :
    Heap × (ℕ → ℕ → ℚ) :=
  let hidden_states := hiddenSummed o k
  let (aRed, h1) := h0.alloc fun b t _ _ _ => attnReduced o k b t
  let aRew := aRed
  let h2 := h1.write aRew fun b t x y z => if t = 0 then 0 else h1.mem aRew b t x y z
  let (aNorm, h3) := h2.alloc fun b t _ _ _ =>
    h2.mem aRew b t 0 0 0 / ∑ t2 ∈ Finset.range o.T, h2.mem aRew b t2 0 0 0
  (h3, fun b d => ∑ t ∈ Finset.range o.T, hidden_states b t d * h3.mem aNorm b t 0 0 0)

/-- A one-cell heap (all-zero tensor at address 0), a concrete
pre-existing state for running the reducer against. -/
def heapOne : Heap where
  mem := fun _ _ _ _ _ _ => 0
  next := 1

/-- A pair of Reducer input windows whose dimensions need not agree:
`hs` is a (k, B1, T1, D) hidden-state window and `att` a
(k, B2, H, T2, T2) attention window.  Used to study lines 82–99 when the
two windows disagree on batch or token count. -/
structure TwoWindows where
  k : ℕ
  B1 : ℕ
  T1 : ℕ
  D : ℕ
  B2 : ℕ
  H : ℕ
  T2 : ℕ
  hs : ℕ → ℕ → ℕ → ℕ → ℚ
  att : ℕ → ℕ → ℕ → ℕ → ℕ → ℚ

/-- Lines 82–84 on the hidden window alone: per-entry sum over layers. -/
def hsumW (w : TwoWindows) : ℕ → ℕ → ℕ → ℚ :=
  fun b t d => ∑ i ∈ Finset.range w.k, w.hs i b t d

/-- Lines 86–94 on the attention window alone: layer/head/query averaging
followed by class-token zeroing. -/
def attRewW (w : TwoWindows) : ℕ → ℕ → ℚ :=
  fun b t =>
    if t = 0 then 0
    else (∑ j ∈ Finset.range w.k, ∑ h ∈ Finset.range w.H, ∑ q ∈ Finset.range w.T2,
        w.att j b h q t) / (w.k * w.H * w.T2)

/-- Lines 95–97 on the attention window alone: per-row normalization. -/
def attNormW (w : TwoWindows) : ℕ → ℕ → ℚ :=
  fun b t => attRewW w b t / ∑ t2 ∈ Finset.range w.T2, attRewW w b t2

/-- NumPy/PyTorch broadcasting of one dimension pair: equal sizes pass
through, a size-1 dimension is silently stretched to the other, and any
other disagreement raises a runtime error (`none`). -/
def bcastDim (m n : ℕ) : Option ℕ :=
  if m = n then some m
  else if m = 1 then some n
  else if n = 1 then some m
  else none

/-- Reading index `i` of a dimension of size `size` under broadcasting:
a size-1 dimension always reads its only entry. -/
def bIdx (size i : ℕ) : ℕ :=
  if size = 1 then 0 else i

/-- Lines 82–100 applied to a pair of possibly mismatched windows, under
the tensor library's semantics: the only point where the two windows meet
is the product `hidden_states * attentions_reweighted.unsqueeze(2)` at
line 99, whose (B1, T1, D) × (B2, T2, 1) shapes are broadcast
dimension-wise; an incompatible pair returns `none` (the runtime shape
error), a compatible pair silently produces the broadcast embedding. -/
def reduceTwoWindows (w : TwoWindows) : Option (ℕ → ℕ → ℚ) :=
  match bcastDim w.B1 w.B2, bcastDim w.T1 w.T2 with
  | some _, some To =>
      some fun b d => ∑ t ∈ Finset.range To,
        hsumW w (bIdx w.B1 b) (bIdx w.T1 t) d * attNormW w (bIdx w.B2 b) (bIdx w.T2 t)
  | _, _ => none

/-- Windows disagreeing on the batch dimension (B1 = 2 vs B2 = 1): the
attention window has batch size 1 while the hidden window has 2. -/
def wBatchOne : TwoWindows where
  k := 1
  B1 := 2
  T1 := 2
  D := 1
  B2 := 1
  H := 1
  T2 := 2
  hs := fun _ _ _ _ => 1
  att := fun _ _ _ _ t => if t = 0 then 1/2 else 1/2

/-- Windows disagreeing on the batch dimension with both sizes above 1
(B1 = 2 vs B2 = 3). -/
def wBatchBig : TwoWindows where
  k := 1
  B1 := 2
  T1 := 2
  D := 1
  B2 := 3
  H := 1
  T2 := 2
  hs := fun _ _ _ _ => 1
  att := fun _ _ _ _ t => if t = 0 then 1/2 else 1/2

/-- One embedding row per image, as `to_embeddings` returns them. -/
def Rows : Type := List (List ℚ)

/-- The `return_format` argument of `to_embeddings` ("np" is the
default). -/
inductive RetFormat
  | np
  | tensor

/-- The `batch` generator of lines 51–54: successive slices
`iterable[ndx : min(ndx + n, length)]` of size `n` (the last one
shorter).  A step of 0 would be a `ValueError` in range; modelled as no
chunks and never used with 0. -/
def batchChunks (xs : List α) (n : ℕ) : List (List α) :=
  if _hx : xs.length = 0 then []
  else if _hn : n = 0 then []
  else xs.take n :: batchChunks (xs.drop n) n
termination_by xs.length
decreasing_by simp [List.length_drop]; omega

/-- Lines 35–68, `to_embeddings` on an input list, parametrized by the
per-chunk pipeline `E` (`process_inputs` followed by
`create_embeddings`, external model inference included).  The small-batch
path (length < batch_size) returns the chunk's rows under either format.
The batched path reproduces the source faithfully: line 56 initializes
`embeddings = []`, but the loop body at line 60 REASSIGNS `embeddings`
to each chunk's result instead of appending, so after the loop only the
final chunk's rows remain; line 64's `np.vstack` turns that tensor into a
NumPy array row-for-row, after which line 66 calls `.numpy()` on it —
an `AttributeError` — while the `"tensor"` format returns the rows. -/
def toEmbeddingsList (E : List α → Rows) (inputs : List α)
    (batchSize : ℕ) (fmt : RetFormat) : Except String Rows :=
  if inputs.length < batchSize then
    Except.ok (E inputs)
  else
    let embeddings := (batchChunks inputs batchSize).foldl (fun _ c => E c) []
    match fmt with
    | RetFormat.np => Except.error "AttributeError"
    | RetFormat.tensor => Except.ok embeddings

/-- The argument of `to_embeddings`: a bare image or a list of images
(line 36's `isinstance(inputs, list)` test). -/
inductive ImgInput (α : Type _)
  | one (x : α)
  | many (xs : List α)

/-- Lines 36–37: a non-list input is wrapped into a one-element list. -/
def asList : ImgInput α → List α
  | ImgInput.one x => [x]
  | ImgInput.many xs => xs

/-- `to_embeddings` on either a bare image or a list. -/
def toEmbeddings (E : List α → Rows) (inp : ImgInput α)
    (batchSize : ℕ) (fmt : RetFormat) : Except String Rows :=
  toEmbeddingsList E (asList inp) batchSize fmt

end Imgbeddings

namespace Imgbeddings

/-- Sums over `List.range` and `Finset.range` agree. -/
theorem sum_map_list_range (n : ℕ) (f : ℕ → ℚ) :
    ((List.range n).map f).sum = ∑ i ∈ Finset.range n, f i := by
  induction n with
  | zero => simp
  | succ m ih => simp [List.range_succ, Finset.sum_range_succ, ih]

/-- C4: step 1 of the Reducer combines the k selected layers' hidden
states by element-wise summation over the layer axis — for every input
and index, the code's stacked reduction equals the spec's per-entry sum
over the k tail layers; and on a concrete two-layer input the result is
the sum 3, not the average 3/2, of the layer values 1 and 2. -/
theorem c4_hidden_layer_summation :
    (∀ (o : ModelOutputs) (k b t d : ℕ),
        hiddenSummed o k b t d = specLayerSum o k b t d) ∧
    hiddenSummed oTwoLayers 2 0 0 0 = 3 ∧ hiddenSummed oTwoLayers 2 0 0 0 ≠ (1 + 2) / 2 := by
  refine ⟨fun o k b t d => ?_, ?_, ?_⟩
  · simpa [hiddenSummed, tailWindow3, List.map_map, Function.comp, specLayerSum] using
      sum_map_list_range k fun i => (o.hiddenStates.getD (o.hiddenStates.length - k + i) zero3) b t d
  · norm_num [hiddenSummed, tailWindow3, oTwoLayers, List.range_succ]
  · norm_num [hiddenSummed, tailWindow3, oTwoLayers, List.range_succ]

/-- C5: step 2 of the Reducer — stacking the k tail attention layers,
transposing batch to the front and taking `torch.mean` over the layer,
head and query axes — yields, at every entry (b, t), exactly the mean
attention mass received by key token t of image b over all selected
layers, heads and query positions. -/
theorem c5_attention_key_mean :
    ∀ (o : ModelOutputs) (k b t : ℕ),
      attnReduced o k b t = specKeyImportance o k b t := by
  intro o k b t
  simp [attnReduced, attentionsT, attStack, specKeyImportance]

/-- C6: for any input with 2 ≤ T whose post-zeroing row sum is nonzero,
the normalized per-image importance vector has weight 0 at the class
token (position 0), sums to 1 over the T token positions, and the class
token's hidden state contributes nothing: the embedding equals the
weighted sum over patch-token positions 1..T-1 alone. -/
theorem c6_normalized_importance (o : ModelOutputs) (k b : ℕ)
    (hT : 2 ≤ o.T) (hs : rowSum o k b ≠ 0) :
    attnNormalized o k b 0 = 0 ∧
    (∑ t ∈ Finset.range o.T, attnNormalized o k b t) = 1 ∧
    ∀ d, createEmbeddings o k b d =
      ∑ t ∈ Finset.Ico 1 o.T, hiddenSummed o k b t d * attnNormalized o k b t := by
  have h0 : attnNormalized o k b 0 = 0 := by
    simp [attnNormalized, attnReweighted]
  refine ⟨h0, ?_, ?_⟩
  · rw [show (∑ t ∈ Finset.range o.T, attnNormalized o k b t) =
        (∑ t ∈ Finset.range o.T, attnReweighted o k b t) / rowSum o k b by
      rw [Finset.sum_div]
      rfl]
    exact div_self hs
  · intro d
    have hpos : 0 < o.T := lt_of_lt_of_le (by norm_num) hT
    rw [createEmbeddings, Finset.range_eq_Ico, Finset.sum_eq_sum_Ico_succ_bot hpos]
    rw [h0]
    ring_nf

/-- C8: on the degenerate input the normalization denominator is exactly
0 and the Reducer still evaluates — the division at lines 95–97 is
unguarded, every normalized weight is the division-by-zero junk value
(0 in this ℚ model, the stand-in for the IEEE NaN artifact) and the
resulting embedding row is that junk propagated (all zero), which in
particular differs from what a uniform fallback weighting over the two
patch tokens would produce (1); no error value exists in the Reducer's
codomain. -/
theorem c8_degenerate_division_unguarded :
    rowSum oDegenerate 1 0 = 0 ∧
    (∀ t, attnNormalized oDegenerate 1 0 t = 0) ∧
    (∀ d, createEmbeddings oDegenerate 1 0 d = 0) ∧
    createEmbeddings oDegenerate 1 0 0 ≠
      ∑ t ∈ Finset.Ico 1 oDegenerate.T,
        hiddenSummed oDegenerate 1 0 t 0 * (1 / ((oDegenerate.T : ℚ) - 1)) := by
  have hrow : rowSum oDegenerate 1 0 = 0 := by
    norm_num [rowSum, attnReweighted, attnReduced, attentionsT, attStack, oDegenerate,
      Finset.sum_range_succ]
  have hnorm : ∀ t, attnNormalized oDegenerate 1 0 t = 0 := by
    intro t
    rcases t with _ | t
    · simp [attnNormalized, attnReweighted]
    · norm_num [attnNormalized, attnReweighted, attnReduced, attentionsT, attStack,
        oDegenerate, Finset.sum_range_succ]
  have hemb : ∀ d, createEmbeddings oDegenerate 1 0 d = 0 := by
    intro d
    rw [createEmbeddings]
    refine Finset.sum_eq_zero fun t _ => ?_
    rw [hnorm t, mul_zero]
  refine ⟨hrow, hnorm, hemb, ?_⟩
  rw [hemb 0]
  norm_num [hiddenSummed, tailWindow3, oDegenerate, List.range_succ,
    Finset.sum_Ico_eq_sum_range, Finset.sum_range_succ]

/-- Witness for C6 at the concrete scenario input (k = 1, image 0):
its hypotheses hold — T = 3 ≥ 2 and the post-zeroing row sum is 1/2 ≠ 0 —
and the normalized weights have class weight 0 and total 1. -/
theorem c6_normalized_importance_witness :
    (2 ≤ oScenario.T ∧ rowSum oScenario 1 0 ≠ 0) ∧
    attnNormalized oScenario 1 0 0 = 0 ∧
    (∑ t ∈ Finset.range oScenario.T, attnNormalized oScenario 1 0 t) = 1 := by
  have hT : 2 ≤ oScenario.T := by norm_num [oScenario]
  have hs : rowSum oScenario 1 0 ≠ 0 := by
    norm_num [rowSum, attnReweighted, attnReduced, attentionsT, attStack, oScenario,
      Finset.sum_range_succ]
  exact ⟨⟨hT, hs⟩, (c6_normalized_importance oScenario 1 0 hT hs).1,
    (c6_normalized_importance oScenario 1 0 hT hs).2.1⟩

/-- C1: on the spec's concrete input the per-key averaged attention is
[1/2, 3/10, 1/5], zeroing the class token and renormalizing gives
[0, 3/5, 2/5], and the returned embedding row for image 0 is
[6/5, 4/5, 0, 0] (= [1.2, 0.8, 0, 0]). -/
theorem c1_concrete_scenario :
    (attnReduced oScenario 1 0 0 = 1/2 ∧ attnReduced oScenario 1 0 1 = 3/10 ∧
      attnReduced oScenario 1 0 2 = 1/5) ∧
    (attnNormalized oScenario 1 0 0 = 0 ∧ attnNormalized oScenario 1 0 1 = 3/5 ∧
      attnNormalized oScenario 1 0 2 = 2/5) ∧
    (createEmbeddings oScenario 1 0 0 = 6/5 ∧ createEmbeddings oScenario 1 0 1 = 4/5 ∧
      createEmbeddings oScenario 1 0 2 = 0 ∧ createEmbeddings oScenario 1 0 3 = 0) := by
  norm_num [createEmbeddings, attnNormalized, attnReweighted, attnReduced, rowSum,
    hiddenSummed, tailWindow3, attentionsT, attStack, oScenario, zero3, zero4,
    Finset.sum_range_succ, List.range_succ]

end Imgbeddings

namespace Imgbeddings

/-- C9: the Reducer is deterministic and pure.  Running the imperative
pipeline of lines 82–100 — including the reference aliasing of
`attentions_reweighted` to `attentions_reduced` at line 91 and the
in-place class-token write at line 94 — against any pre-existing heap
leaves every previously allocated cell (in particular the model's output
tensors) unchanged, and the returned embedding is exactly the pure
function `createEmbeddings` of the inputs alone, independent of the heap;
hence two runs on identical inputs return identical embeddings. -/
theorem c9_reducer_pure_deterministic (o : ModelOutputs) (k : ℕ) (h0 : Heap)
    (a : ℕ) (ha : a < h0.next) :
    (runCreateEmbeddings o k h0).1.mem a = h0.mem a ∧
    (runCreateEmbeddings o k h0).2 = createEmbeddings o k := by
  have hne1 : a ≠ h0.next := Nat.ne_of_lt ha
  have hne2 : a ≠ h0.next + 1 := by omega
  constructor
  · simp [runCreateEmbeddings, Heap.alloc, Heap.write, hne1, hne2]
  · funext b d
    simp [runCreateEmbeddings, Heap.alloc, Heap.write, createEmbeddings,
      attnNormalized, attnReweighted, rowSum]

/-- Witness for C9: running the reducer on the concrete scenario input
over the concrete one-cell heap leaves cell 0 unchanged and returns the
pure embedding. -/
theorem c9_reducer_pure_deterministic_witness :
    0 < heapOne.next ∧
    ((runCreateEmbeddings oScenario 1 heapOne).1.mem 0 = heapOne.mem 0 ∧
      (runCreateEmbeddings oScenario 1 heapOne).2 = createEmbeddings oScenario 1) :=
  ⟨by norm_num [heapOne],
    c9_reducer_pure_deterministic oScenario 1 heapOne 0 (by norm_num [heapOne])⟩

end Imgbeddings

namespace Imgbeddings

/-- C2 (code bug evidence): feeding three images with batch_size 2 — so
the batched path runs with two chunks — the loop's reassignment of
`embeddings` drops the first chunk, and `to_embeddings` returns only the
last image's row instead of the three rows in input order; with the
default "np" format the same path raises `AttributeError` at line 66. -/
theorem c2_batched_path_drops_chunks {α : Type} :
    ∀ (x0 x1 x2 : α) (e : α → List ℚ),
      toEmbeddingsList (fun xs => xs.map e) [x0, x1, x2] 2 RetFormat.tensor =
        Except.ok [e x2] ∧
      toEmbeddingsList (fun xs => xs.map e) [x0, x1, x2] 2 RetFormat.tensor ≠
        Except.ok ([x0, x1, x2].map e) ∧
      toEmbeddingsList (fun xs => xs.map e) [x0, x1, x2] 2 RetFormat.np =
        Except.error "AttributeError" := by
  intro x0 x1 x2 e
  have hchunks : batchChunks [x0, x1, x2] 2 = [[x0, x1], [x2]] := by
    simp [batchChunks]
  have h1 : toEmbeddingsList (fun xs => xs.map e) [x0, x1, x2] 2 RetFormat.tensor =
      Except.ok [e x2] := by
    simp [toEmbeddingsList, hchunks]
  refine ⟨h1, ?_, by simp [toEmbeddingsList, hchunks]⟩
  rw [h1]
  intro h
  injection h with h2
  have h3 := congrArg List.length h2
  simp at h3

/-- C3 (code bug evidence): the same three images processed in one chunk
(batch_size 4 > 3) yield all three rows, but processed in chunks of 2
yield only the final chunk's single row — chunking invariance fails on
the code because the loop reassigns instead of appending. -/
theorem c3_chunking_not_invariant {α : Type} :
    ∀ (x0 x1 x2 : α) (e : α → List ℚ),
      toEmbeddingsList (fun xs => xs.map e) [x0, x1, x2] 4 RetFormat.tensor =
        Except.ok [e x0, e x1, e x2] ∧
      toEmbeddingsList (fun xs => xs.map e) [x0, x1, x2] 2 RetFormat.tensor =
        Except.ok [e x2] ∧
      toEmbeddingsList (fun xs => xs.map e) [x0, x1, x2] 2 RetFormat.tensor ≠
        toEmbeddingsList (fun xs => xs.map e) [x0, x1, x2] 4 RetFormat.tensor := by
  intro x0 x1 x2 e
  have hchunks : batchChunks [x0, x1, x2] 2 = [[x0, x1], [x2]] := by
    simp [batchChunks]
  have h1 : toEmbeddingsList (fun xs => xs.map e) [x0, x1, x2] 4 RetFormat.tensor =
      Except.ok [e x0, e x1, e x2] := by
    simp [toEmbeddingsList]
  have h2 : toEmbeddingsList (fun xs => xs.map e) [x0, x1, x2] 2 RetFormat.tensor =
      Except.ok [e x2] := by
    simp [toEmbeddingsList, hchunks]
  refine ⟨h1, h2, ?_⟩
  rw [h1, h2]
  intro h
  injection h with h3
  have h4 := congrArg List.length h3
  simp at h4

/-- C7 counterexample: windows that disagree on the batch dimension
(hidden batch 2, attention batch 1) are NOT rejected — the line-99
product silently broadcasts the size-1 batch and produces an embedding,
refuting "signals a shape-mismatch error for every disagreement". -/
theorem c7_counterexample_silent_broadcast :
    wBatchOne.B1 ≠ wBatchOne.B2 ∧ (reduceTwoWindows wBatchOne).isSome = true := by
  constructor
  · decide
  · rfl

/-- C7 amended: the Reducer performs no shape check of its own; under
the tensor library's broadcasting, a disagreement on the batch or
token-count dimension is rejected (runtime shape error, `none`) exactly
when neither of the two differing sizes is 1 — a differing size of 1 is
silently broadcast instead. -/
theorem c7_amended_mismatch_error (w : TwoWindows)
    (h : (w.B1 ≠ w.B2 ∧ w.B1 ≠ 1 ∧ w.B2 ≠ 1) ∨
      (w.T1 ≠ w.T2 ∧ w.T1 ≠ 1 ∧ w.T2 ≠ 1)) :
    reduceTwoWindows w = none := by
  rcases h with ⟨h1, h2, h3⟩ | ⟨h1, h2, h3⟩
  · have hB : bcastDim w.B1 w.B2 = none := by simp [bcastDim, h1, h2, h3]
    cases hT : bcastDim w.T1 w.T2 <;> simp [reduceTwoWindows, hB, hT]
  · have hT : bcastDim w.T1 w.T2 = none := by simp [bcastDim, h1, h2, h3]
    cases hB : bcastDim w.B1 w.B2 <;> simp [reduceTwoWindows, hB, hT]

/-- Witness for the amended C7: hidden batch 2 against attention batch 3
(both above 1) is rejected with the shape error. -/
theorem c7_amended_mismatch_error_witness :
    (wBatchBig.B1 ≠ wBatchBig.B2 ∧ wBatchBig.B1 ≠ 1 ∧ wBatchBig.B2 ≠ 1) ∧
    reduceTwoWindows wBatchBig = none :=
  ⟨⟨by decide, by decide, by decide⟩,
    c7_amended_mismatch_error wBatchBig (Or.inl ⟨by decide, by decide, by decide⟩)⟩

/-- C10: a bare (non-list) input is wrapped into the one-element list
before processing, so `to_embeddings` on `x` returns exactly what it
returns on `[x]`; and for any batch size above 1 that is one embedding
row, the per-image embedding of `x`. -/
theorem c10_single_input_wrapped {α : Type} (E : List α → Rows)
    (e : α → List ℚ) (x : α) (bs : ℕ) (fmt : RetFormat) (hbs : 1 < bs) :
    toEmbeddings E (ImgInput.one x) bs fmt =
      toEmbeddings E (ImgInput.many [x]) bs fmt ∧
    toEmbeddings (fun xs => xs.map e) (ImgInput.one x) bs fmt =
      Except.ok [e x] := by
  constructor
  · rfl
  · simp [toEmbeddings, toEmbeddingsList, asList, hbs]

/-- Witness for C10 at image 5, the default batch size 64 and the
default "np" format. -/
theorem c10_single_input_wrapped_witness :
    (1 : ℕ) < 64 ∧
    (toEmbeddings (fun xs : List ℕ => xs.map fun n => [(n : ℚ)])
        (ImgInput.one 5) 64 RetFormat.np =
      toEmbeddings (fun xs : List ℕ => xs.map fun n => [(n : ℚ)])
        (ImgInput.many [5]) 64 RetFormat.np ∧
    toEmbeddings (fun xs : List ℕ => xs.map fun n => [(n : ℚ)])
        (ImgInput.one 5) 64 RetFormat.np = Except.ok [[(5 : ℚ)]]) :=
  ⟨by norm_num,
    c10_single_input_wrapped (fun xs : List ℕ => xs.map fun n => [(n : ℚ)])
      (fun n => [(n : ℚ)]) 5 64 RetFormat.np (by norm_num)⟩

end Imgbeddings
